import Mathlib

/-!
Shallow embedding of `src/rotconv.py` (plate rotation file converter).

The script reads a rotation file, groups records per moving plate, orders the
plates, runs crossover detection, serializes each stage record, and collects
three diagnostic lists (replaced / zero / future rotations) written to an
error report.  Numeric fields (Python Decimal / float) are modelled as `ℚ`;
the per-stage tuple produced by the external parser is modelled as a `Stage`
structure; the mutable run state (output lines and the three diagnostic
lists of `main`) is a `RunState` record threaded through a fold.

Functions imported by `rotconv.py` from the external `gptools` module
(readROT, generatePlateIdDict, detect_xover, format_mprs_header,
format_grot_mprs_comment) are not under `src/`; where a claim depends on
them they are modelled from the spec, and each such definition carries a
doc comment starting with `Modelled from the spec:`.
-/

namespace Rotconv

/-- Modelled from the spec: the raw-record parser `readROT` (external
`gptools` module, not under `src/`) retains the trailing comment segment of a
line both as key:value provenance tokens (spec section 3, commentMeta:
mapping string to string) and as positional comment slots of the raw record;
the per-plate metadata fallback of `main` reads designated slots 2 (plate
code) and 3 (fixed-plate code) of the first record (spec section 4.2). -/
structure CommentMeta where
  tokens : List (String × String)
  slots : List String
deriving DecidableEq

/-- One stage rotation record, the tuple `stage` unpacked by `main` at lines
338-345 of `src/rotconv.py`: age, lat, lon, angle (numeric, modelled as `ℚ`),
the fixed plate id `PlateID2`, the comment metadata dictionary, the source
tag, and the inactive flag. -/
structure Stage where
  age : ℚ
  lat : ℚ
  lon : ℚ
  angle : ℚ
  pid2 : Nat
  comment : CommentMeta
  source : String
  inactive : Bool
deriving DecidableEq

/-- Python `str.rjust` / right-aligned format field: pad with spaces on the
left up to width `w`. -/
def rjust (w : Nat) (s : String) : String :=
  if s.length < w then String.mk (List.replicate (w - s.length) ' ') ++ s else s

/-- Pad a digit string with zeros on the left up to width `w`. -/
def padZeros (w : Nat) (s : String) : String :=
  if s.length < w then String.mk (List.replicate (w - s.length) '0') ++ s else s

/-- Fixed-point rendering of a rational with `prec` digits after the decimal
point, as Python `%.{prec}f` renders a number (rounding to the nearest
multiple of `10 ^ -prec`; the tie-breaking rule is unobservable for the
inputs used here). -/
def fmtFixed (prec : Nat) (q : ℚ) : String :=
  let scale : Nat := 10 ^ prec
  let n : Int := round (q * (scale : ℚ))
  (if n < 0 then "-" else "") ++
    toString (n.natAbs / scale) ++ "." ++ padZeros prec (toString (n.natAbs % scale))

/-- Line 357 of `src/rotconv.py`: the fixed-width data segment
`'{0:>8}{1:11.5f}{2:10.5f}{3:11.5f}{4:11.5f}{5:>8}'.format( PlateID1, Age,
Lat, Lon, Angle, PlateID2 )`. -/
def formattedStageRotationData (pid1 : Nat) (s : Stage) : String :=
  rjust 8 (toString pid1) ++ rjust 11 (fmtFixed 5 s.age) ++ rjust 10 (fmtFixed 5 s.lat) ++
    rjust 11 (fmtFixed 5 s.lon) ++ rjust 11 (fmtFixed 5 s.angle) ++ rjust 8 (toString s.pid2)

/-- Modelled from the spec: `format_grot_mprs_comment` (external `gptools`
module, not under `src/`) renders the key:value provenance tokens of a stage
comment into the formatted comment string appended to the output line.  The
claims settled here depend only on it being a function of the comment
metadata. -/
def format_grot_mprs_comment (c : CommentMeta) : String :=
  String.intercalate " " (c.tokens.map (fun kv => kv.1 ++ ":" ++ kv.2))

/-- Lines 362-373 of `src/rotconv.py`: serialization of one stage record.
The output format selector is the string `OUTFILEFORMAT` compared against
the literal `"GROT"` (anything else is treated as ROT, as in the source).
`" ".join([a, b])` is `a ++ " " ++ b` and `" ! ".join([a, b])` is
`a ++ " ! " ++ b`. -/
def formattedStageRotation (fmt : String) (pid1 : Nat) (s : Stage) : String :=
  let dat := formattedStageRotationData pid1 s
  let com := format_grot_mprs_comment s.comment
  if s.inactive then
    if fmt = "GROT" then "#" ++ (dat ++ " " ++ com) ++ "\n"
    else "999 0.0 0.0 0.0 0.0 999 # " ++ (dat ++ " " ++ com) ++ "\n"
  else
    if fmt = "GROT" then (dat ++ " " ++ com) ++ "\n"
    else (dat ++ " ! " ++ com) ++ "\n"

/-- Python `int(s)` on the decimal strings produced by `str` of an int:
accumulate the decimal digits back into a natural number. -/
def strToNat (s : String) : Nat :=
  s.data.foldl (fun n c => n * 10 + (c.toNat - 48)) 0

/-- Code-point lexicographic comparison of character lists: the order Python
uses to compare strings, hence the order `cardinalPIDList1.sort()` sorts by
at line 220 of `src/rotconv.py`. -/
def charListLe : List Char → List Char → Bool
  | [], _ => true
  | _ :: _, [] => false
  | a :: as, b :: bs =>
      if a.toNat < b.toNat then true
      else if b.toNat < a.toNat then false
      else charListLe as bs

/-- Boolean code-point lexicographic comparison of strings. -/
def strLexLe (a b : String) : Bool :=
  charListLe a.data b.data

/-- The lexicographic string order as a proposition, for use with the
Mathlib sorting library. -/
def strLexLeP (a b : String) : Prop :=
  strLexLe a b = true

instance : DecidableRel strLexLeP :=
  fun a b => instDecidableEqBool (strLexLe a b) true

/-- Lines 213-222 of `src/rotconv.py`: the output plate ordering.
`absRefPIDs = sorted(i for i in plateIDList if i < 100)` sorts the reference
plates numerically; the remaining ids are mapped to their decimal string
representation, sorted as strings (Python string comparison is code-point
lexicographic), and mapped back to ints. -/
def newPIDList (plateIDList : List Nat) : List Nat :=
  let absRefPIDs := (plateIDList.filter (fun i => decide (i < 100))).insertionSort (· ≤ ·)
  let cardinalPIDList1 :=
    ((plateIDList.filter (fun i => decide (100 ≤ i))).map toString).insertionSort strLexLeP
  absRefPIDs ++ cardinalPIDList1.map strToNat

/-- Modelled from the spec: the repair step of `detect_xover` (external
`gptools` module, not under `src/`).  Spec section 4.3: the detector finds
positions where the fixed-plate reference changes between adjacent stages in
a way inconsistent with a single continuous reference-frame assignment, and
annotates/substitutes values of the offending stage in place.  The precise
substitution rule is left open by the spec (section 9); we model it as
substituting the fixed plate id of the predecessor and tagging the source
field.  The claims proved below depend only on the repair happening in
place, at the offending position, without reordering or deleting. -/
def repairStage (prev cur : Stage) : Stage :=
  if cur.pid2 ≠ prev.pid2 then
    { cur with pid2 := prev.pid2, source := cur.source ++ " xover-replaced" }
  else cur

/-- Tail worker of `detect_xover`: walk adjacent pairs, repairing in place. -/
def detectXoverGo (prev : Stage) : List Stage → List Stage
  | [] => []
  | cur :: rest =>
      let cur' := repairStage prev cur
      cur' :: detectXoverGo cur' rest

/-- Modelled from the spec: `detect_xover( stageList, PlateID1 )` (external
`gptools` module, not under `src/`), called at line 321 of `src/rotconv.py`.
It receives only the stage list of one plate (which it may mutate in place)
and the plate id; in particular it has no access to the local
`replacedRotations` list of `main`. -/
def detect_xover (l : List Stage) : List Stage :=
  match l with
  | [] => []
  | s :: rest => s :: detectXoverGo s rest

/-- The mutable state of `main` observable by the claims: the stage lines
written to the main output file, and the three diagnostic lists
`zeroRotations`, `futureRotations`, `replacedRotations` initialised empty at
lines 133-135 of `src/rotconv.py`. -/
structure RunState where
  output : List String
  zeroRotations : List String
  futureRotations : List String
  replacedRotations : List String
deriving DecidableEq

def initState : RunState :=
  { output := [], zeroRotations := [], futureRotations := [], replacedRotations := [] }

/-- Line 402 of `src/rotconv.py`: the zero-rotation diagnostic message
`"Zero rotation at %.2f Ma | " % float(Age) + formattedStageRotation`. -/
def zeroMsg (s : Stage) (line : String) : String :=
  "Zero rotation at " ++ fmtFixed 2 s.age ++ " Ma | " ++ line

/-- Line 418 of `src/rotconv.py`: the future-rotation diagnostic message. -/
def futureMsg (line : String) : String :=
  "Future rotation skipped | " ++ line

/-- Lines 356-418 of `src/rotconv.py`: the body of the per-stage loop.  The
condition at line 397 is transcribed verbatim, including the duplicated
`Lat == 0.0` conjunct; the write test at line 412 is `not float(Age) < 0.0`. -/
def processStage (fmt : String) (pid1 : Nat) (st : RunState) (s : Stage) : RunState :=
  let line := formattedStageRotation fmt pid1 s
  let st1 :=
    if 0 < s.age ∧ s.lat = 0 ∧ s.lat = 0 ∧ s.angle = 0 then
      { st with zeroRotations := st.zeroRotations ++ [zeroMsg s line] }
    else st
  if ¬ s.age < 0 then
    { st1 with output := st1.output ++ [line] }
  else
    { st1 with futureRotations := st1.futureRotations ++ [futureMsg line] }

/-- Lines 320-418 of `src/rotconv.py`: stage processing for one plate —
`detect_xover` on the stage list, then the per-stage loop in list order.
(The per-plate header written at lines 312-315 goes to the main output
before the stage block and is independent of the diagnostics; no claim
below concerns it, so this definition models the stage portion of the
plate loop.) -/
def processPlateStages (fmt : String) (pid1 : Nat) (st : RunState) (stages : List Stage) : RunState :=
  (detect_xover stages).foldl (processStage fmt pid1) st

/-- The plate loop of `main` (line 250): fold `processPlateStages` over the
ordered plates, starting from the empty diagnostic lists. -/
def runPlates (fmt : String) (plates : List (Nat × List Stage)) : RunState :=
  plates.foldl (fun st p => processPlateStages fmt p.1 st p.2) initState

/-- Line 436 of `src/rotconv.py`: the error report header line. -/
def errHeader : String :=
  "Rotation file errors during processing - produced by rotconv.py\n"

/-- Lines 437, 440, 443, 446 of `src/rotconv.py`: the banner separator
`"\n" + "=" * 80 + "\n"`. -/
def banner : String :=
  "\n" ++ String.mk (List.replicate 80 '=') ++ "\n"

/-- Lines 436-446 of `src/rotconv.py`: the diagnostics report, written as a
sequence of `errorfile.write` calls — header, banner, each replaced
rotation in order, banner, each zero rotation in order, banner, each future
rotation in order, banner.  The file content is modelled as the string the
writes accumulate. -/
def errorReport (st : RunState) : String :=
  let c1 := errHeader ++ banner
  let c2 := st.replacedRotations.foldl (· ++ ·) c1
  let c3 := c2 ++ banner
  let c4 := st.zeroRotations.foldl (· ++ ·) c3
  let c5 := c4 ++ banner
  let c6 := st.futureRotations.foldl (· ++ ·) c5
  c6 ++ banner

/-- The per-plate metadata triple resolved at lines 295-310 of
`src/rotconv.py`. -/
structure PlateMeta where
  code : String
  name : String
  fcode : String
deriving DecidableEq

/-- Lines 295-310 of `src/rotconv.py`: per-plate metadata resolution with
the try/except fallback chain, modelled with `Except` standing for a Python
exception escaping.  `mprs` is the comment-token mapping
`mprsDict[PlateID1]` of the plate, `stages` the plate record list
`plateIdDict[PlateID1]`.  The code falls back to slot 2 of the first record
comment (`plateIdDict[PlateID1][0][5][2]`), the name to the literal
`'FIXME'`, and the fixed-plate code to slot 3. -/
def resolvePlateMeta (mprs : List (String × String)) (stages : List Stage) :
    Except String PlateMeta :=
  let codeE : Except String String :=
    match mprs.lookup "MPRS:code" with
    | some c => Except.ok c
    | none =>
        match stages.head? with
        | none => Except.error "IndexError"
        | some first =>
            match first.comment.slots.get? 2 with
            | some v => Except.ok v
            | none => Except.error "KeyError"
  let fcodeE : Except String String :=
    match mprs.lookup "FPID:code" with
    | some c => Except.ok c
    | none =>
        match stages.head? with
        | none => Except.error "IndexError"
        | some first =>
            match first.comment.slots.get? 3 with
            | some v => Except.ok v
            | none => Except.error "KeyError"
  match codeE, fcodeE with
  | Except.ok c, Except.ok f =>
      Except.ok { code := c, name := (mprs.lookup "MPRS:name").getD "FIXME", fcode := f }
  | Except.error e, _ => Except.error e
  | _, Except.error e => Except.error e

/-- The fields of a stage that the crossover repair never touches: everything
except the fixed plate id and the source tag it may substitute/annotate. -/
def stageCore (s : Stage) : ℚ × ℚ × ℚ × ℚ × CommentMeta × Bool :=
  (s.age, s.lat, s.lon, s.angle, s.comment, s.inactive)

lemma stageCore_repairStage (prev cur : Stage) :
    stageCore (repairStage prev cur) = stageCore cur := by
  unfold repairStage
  split <;> rfl

lemma detectXoverGo_core (rest : List Stage) :
    ∀ prev : Stage, (detectXoverGo prev rest).map stageCore = rest.map stageCore := by
  induction rest with
  | nil => intro prev; rfl
  | cons cur rest ih =>
      intro prev
      simp only [detectXoverGo, List.map_cons, stageCore_repairStage, ih]

lemma detect_xover_core (l : List Stage) :
    (detect_xover l).map stageCore = l.map stageCore := by
  cases l with
  | nil => rfl
  | cons s rest => simp only [detect_xover, List.map_cons, detectXoverGo_core]

lemma charListLe_total (as : List Char) :
    ∀ bs : List Char, charListLe as bs = true ∨ charListLe bs as = true := by
  induction as with
  | nil => intro bs; left; rfl
  | cons a as ih =>
      intro bs
      cases bs with
      | nil => right; rfl
      | cons b bs =>
          rcases Nat.lt_trichotomy a.toNat b.toNat with h | h | h
          · left; simp [charListLe, h]
          · rcases ih bs with h2 | h2
            · left; simp [charListLe, h, h2]
            · right; simp [charListLe, h.symm, h2]
          · right; simp [charListLe, h]

lemma charListLe_trans (as : List Char) :
    ∀ bs cs : List Char, charListLe as bs = true → charListLe bs cs = true →
      charListLe as cs = true := by
  induction as with
  | nil => intro bs cs h1 h2; rfl
  | cons a as ih =>
      intro bs cs h1 h2
      cases bs with
      | nil => simp [charListLe] at h1
      | cons b bs =>
          cases cs with
          | nil => simp [charListLe] at h2
          | cons c cs =>
              by_cases hab : a.toNat < b.toNat
              · by_cases hbc : b.toNat < c.toNat
                · have hac : a.toNat < c.toNat := lt_trans hab hbc
                  simp [charListLe, hac]
                · by_cases hcb : c.toNat < b.toNat
                  · simp [charListLe, hbc, hcb] at h2
                  · have hac : a.toNat < c.toNat := by omega
                    simp [charListLe, hac]
              · by_cases hba : b.toNat < a.toNat
                · simp [charListLe, hab, hba] at h1
                · have h1' : charListLe as bs = true := by
                    simpa [charListLe, hab, hba] using h1
                  by_cases hbc : b.toNat < c.toNat
                  · have hac : a.toNat < c.toNat := by omega
                    simp [charListLe, hac]
                  · by_cases hcb : c.toNat < b.toNat
                    · simp [charListLe, hbc, hcb] at h2
                    · have h2' : charListLe bs cs = true := by
                        simpa [charListLe, hbc, hcb] using h2
                      have hac1 : ¬ a.toNat < c.toNat := by omega
                      have hac2 : ¬ c.toNat < a.toNat := by omega
                      simpa [charListLe, hac1, hac2] using ih bs cs h1' h2'

instance : IsTotal String strLexLeP :=
  ⟨fun a b => charListLe_total a.data b.data⟩

instance : IsTrans String strLexLeP :=
  ⟨fun a b c => charListLe_trans a.data b.data c.data⟩

lemma processStage_output (fmt : String) (pid1 : Nat) (st : RunState) (s : Stage) :
    (processStage fmt pid1 st s).output =
      if s.age < 0 then st.output
      else st.output ++ [formattedStageRotation fmt pid1 s] := by
  by_cases ha : s.age < 0 <;>
    by_cases hz : (0 < s.age ∧ s.lat = 0 ∧ s.angle = 0) <;>
      simp [processStage, ha, hz]

lemma processStage_futureRotations (fmt : String) (pid1 : Nat) (st : RunState) (s : Stage) :
    (processStage fmt pid1 st s).futureRotations =
      if s.age < 0 then
        st.futureRotations ++ [futureMsg (formattedStageRotation fmt pid1 s)]
      else st.futureRotations := by
  by_cases ha : s.age < 0 <;>
    by_cases hz : (0 < s.age ∧ s.lat = 0 ∧ s.angle = 0) <;>
      simp [processStage, ha, hz]

lemma processStage_zeroRotations (fmt : String) (pid1 : Nat) (st : RunState) (s : Stage) :
    (processStage fmt pid1 st s).zeroRotations =
      if 0 < s.age ∧ s.lat = 0 ∧ s.lat = 0 ∧ s.angle = 0 then
        st.zeroRotations ++ [zeroMsg s (formattedStageRotation fmt pid1 s)]
      else st.zeroRotations := by
  by_cases ha : s.age < 0 <;>
    by_cases hz : (0 < s.age ∧ s.lat = 0 ∧ s.angle = 0) <;>
      simp [processStage, ha, hz]

lemma processStage_replacedRotations (fmt : String) (pid1 : Nat) (st : RunState) (s : Stage) :
    (processStage fmt pid1 st s).replacedRotations = st.replacedRotations := by
  by_cases ha : s.age < 0 <;>
    by_cases hz : (0 < s.age ∧ s.lat = 0 ∧ s.angle = 0) <;>
      simp [processStage, ha, hz]

lemma foldl_processStage_output (fmt : String) (pid1 : Nat) (stages : List Stage) :
    ∀ st : RunState,
      (stages.foldl (processStage fmt pid1) st).output =
        st.output ++
          (stages.filter (fun s => decide (¬ s.age < 0))).map (formattedStageRotation fmt pid1) := by
  induction stages with
  | nil => intro st; simp
  | cons s rest ih =>
      intro st
      by_cases ha : s.age < 0
      · have ha' : ¬ (0 : ℚ) ≤ s.age := not_le.mpr ha
        simp [List.foldl_cons, ih, processStage_output, ha, ha', List.filter_cons]
      · have ha' : (0 : ℚ) ≤ s.age := not_lt.mp ha
        simp [List.foldl_cons, ih, processStage_output, ha, ha', List.filter_cons]

lemma foldl_processStage_replaced (fmt : String) (pid1 : Nat) (stages : List Stage) :
    ∀ st : RunState,
      (stages.foldl (processStage fmt pid1) st).replacedRotations = st.replacedRotations := by
  induction stages with
  | nil => intro st; rfl
  | cons s rest ih =>
      intro st
      rw [List.foldl_cons, ih, processStage_replacedRotations]

lemma runPlates_replaced (fmt : String) (plates : List (Nat × List Stage)) :
    (runPlates fmt plates).replacedRotations = [] := by
  suffices h : ∀ st : RunState,
      (plates.foldl (fun st p => processPlateStages fmt p.1 st p.2) st).replacedRotations =
        st.replacedRotations by
    exact h initState
  induction plates with
  | nil => intro st; rfl
  | cons p rest ih =>
      intro st
      rw [List.foldl_cons, ih]
      exact foldl_processStage_replaced fmt p.1 (detect_xover p.2) st

lemma foldl_append_join (xs : List String) :
    ∀ acc : String, xs.foldl (· ++ ·) acc = acc ++ String.join xs := by
  induction xs with
  | nil => intro acc; simp [String.join, String.append_empty]
  | cons x xs ih =>
      intro acc
      have hx : String.join (x :: xs) = x ++ String.join xs := by
        show List.foldl (· ++ ·) ("" ++ x) xs = x ++ String.join xs
        rw [String.empty_append, ih x]
      rw [List.foldl_cons, ih (acc ++ x), hx, String.append_assoc]

/-! Concrete records used to exercise the definitions. -/

/-- A sample comment metadata value carrying four designated slots. -/
def demoComment : CommentMeta :=
  { tokens := [("AU", "Heine"), ("T", "2020-01-01")],
    slots := ["12", "0", "AFR", "HOT"] }

/-- First stage of a crossover pair: fixed plate 0 at 10 Ma. -/
def xoverA : Stage :=
  { age := 10, lat := 1, lon := 2, angle := 3, pid2 := 0,
    comment := demoComment, source := "rot", inactive := false }

/-- Second stage of a crossover pair: the fixed plate reference jumps to 701
at the same age, the discontinuity the crossover detector repairs. -/
def xoverB : Stage :=
  { age := 10, lat := 4, lon := 5, angle := 6, pid2 := 701,
    comment := demoComment, source := "rot", inactive := false }

/-- A future-prediction record: age is negative. -/
def futureStage : Stage :=
  { age := -5, lat := 1, lon := 2, angle := 3, pid2 := 701,
    comment := demoComment, source := "rot", inactive := false }

/-- An ordinary active record at a positive age. -/
def presentStage : Stage :=
  { age := 100, lat := 1, lon := 2, angle := 3, pid2 := 701,
    comment := demoComment, source := "rot", inactive := false }

/-- A zero rotation at a positive age: lat and angle both vanish. -/
def zeroStage : Stage :=
  { age := 10, lat := 0, lon := 5, angle := 0, pid2 := 701,
    comment := demoComment, source := "rot", inactive := false }

/-- An inactive (commented-out) record. -/
def inactiveStage : Stage :=
  { age := 42, lat := 1, lon := 2, angle := 3, pid2 := 701,
    comment := demoComment, source := "rot", inactive := true }

/-- An inactive record with a negative age. -/
def inactiveFutureStage : Stage :=
  { age := -7, lat := 1, lon := 2, angle := 3, pid2 := 701,
    comment := demoComment, source := "rot", inactive := true }

/-! The claims. -/

/-- C1: the claim says every record substituted by the crossover repair
appears in the ReplacedRotation section of the diagnostics.  On the code
this fails: `main` initialises `replacedRotations = []` (line 135), calls
`detect_xover( stageList, PlateID1 )` (line 321) — which receives only the
stage list and the plate id and therefore cannot reach the local list — and
nothing else ever appends to `replacedRotations` before it is written out at
lines 438-439.  At the concrete crossover input below the repair substitutes
a value in the second stage, yet the ReplacedRotation section of the run is
empty. -/
theorem C1_crossover_substitution_unlogged :
    detect_xover [xoverA, xoverB] ≠ [xoverA, xoverB] ∧
    (runPlates "GROT" [(501, [xoverA, xoverB])]).replacedRotations = [] := by
  constructor
  · decide
  · exact runPlates_replaced "GROT" _

/-- C2: the output plate order is the ids below 100 in ascending numeric
order, followed by the ids at or above 100 ordered by code-point
lexicographic comparison of their decimal string representation; on the id
set 1, 2, 101, 1011, 102 this yields 1, 2, 101, 1011, 102 (1011 before 102,
not numeric order). -/
theorem C2_plate_order :
    newPIDList [1, 2, 101, 1011, 102] = [1, 2, 101, 1011, 102] ∧
    ∀ l : List Nat, ∃ a : List Nat, ∃ ss : List String,
      newPIDList l = a ++ ss.map strToNat ∧
      a.Perm (l.filter (fun i => decide (i < 100))) ∧
      a.Sorted (· ≤ ·) ∧
      ss.Perm ((l.filter (fun i => decide (100 ≤ i))).map toString) ∧
      ss.Sorted strLexLeP := by
  refine ⟨by decide, ?_⟩
  intro l
  exact ⟨(l.filter (fun i => decide (i < 100))).insertionSort (· ≤ ·),
    ((l.filter (fun i => decide (100 ≤ i))).map toString).insertionSort strLexLeP,
    rfl, List.perm_insertionSort _ _, List.sorted_insertionSort _ _,
    List.perm_insertionSort _ _, List.sorted_insertionSort _ _⟩

/-- C3: a record with negative age is excluded from the main output and
appended exactly once to the FutureRotation diagnostics; a record with
nonnegative age has its formatted line written to the main output and leaves
the FutureRotation diagnostics unchanged. -/
theorem C3_future_age_partition (fmt : String) (pid1 : Nat) (st : RunState) (s : Stage) :
    (s.age < 0 →
      (processStage fmt pid1 st s).output = st.output ∧
      (processStage fmt pid1 st s).futureRotations =
        st.futureRotations ++ [futureMsg (formattedStageRotation fmt pid1 s)]) ∧
    (0 ≤ s.age →
      (processStage fmt pid1 st s).output =
        st.output ++ [formattedStageRotation fmt pid1 s] ∧
      (processStage fmt pid1 st s).futureRotations = st.futureRotations) := by
  constructor
  · intro h
    simp [processStage_output, processStage_futureRotations, h]
  · intro h
    have h' : ¬ s.age < 0 := not_lt.mpr h
    simp [processStage_output, processStage_futureRotations, h']

/-- Witness for C3: at a concrete future-age record the output is untouched
and one FutureRotation entry is appended; at a concrete present-age record
the line is written and the diagnostics are untouched. -/
theorem C3_future_age_partition_witness :
    ((processStage "GROT" 201 initState futureStage).output = initState.output ∧
     (processStage "GROT" 201 initState futureStage).futureRotations =
       initState.futureRotations ++
         [futureMsg (formattedStageRotation "GROT" 201 futureStage)]) ∧
    ((processStage "ROT" 201 initState presentStage).output =
       initState.output ++ [formattedStageRotation "ROT" 201 presentStage] ∧
     (processStage "ROT" 201 initState presentStage).futureRotations =
       initState.futureRotations) :=
  ⟨(C3_future_age_partition "GROT" 201 initState futureStage).1 (by decide),
   (C3_future_age_partition "ROT" 201 initState presentStage).2 (by decide)⟩

/-- C4: a record with positive age and vanishing lat and angle is appended
to the ZeroRotation diagnostics and its formatted line is still written to
the main output. -/
theorem C4_zero_rotation_logged_and_written (fmt : String) (pid1 : Nat) (st : RunState)
    (s : Stage) (h1 : 0 < s.age) (h2 : s.lat = 0) (h3 : s.angle = 0) :
    (processStage fmt pid1 st s).zeroRotations =
      st.zeroRotations ++ [zeroMsg s (formattedStageRotation fmt pid1 s)] ∧
    (processStage fmt pid1 st s).output =
      st.output ++ [formattedStageRotation fmt pid1 s] := by
  have h' : ¬ s.age < 0 := not_lt.mpr (le_of_lt h1)
  constructor
  · rw [processStage_zeroRotations, if_pos ⟨h1, h2, h2, h3⟩]
  · rw [processStage_output, if_neg h']

/-- Witness for C4: at a concrete zero-rotation record (age 10, lat 0,
angle 0) the ZeroRotation entry is appended and the line is still written. -/
theorem C4_zero_rotation_logged_and_written_witness :
    (processStage "GROT" 201 initState zeroStage).zeroRotations =
      initState.zeroRotations ++
        [zeroMsg zeroStage (formattedStageRotation "GROT" 201 zeroStage)] ∧
    (processStage "GROT" 201 initState zeroStage).output =
      initState.output ++ [formattedStageRotation "GROT" 201 zeroStage] :=
  C4_zero_rotation_logged_and_written "GROT" 201 initState zeroStage (by decide) rfl rfl

/-- C5: an inactive record serialized in legacy (ROT) format is the literal
sentinel prefix followed by a hash-prefixed segment carrying the original
fixed-width data fields and the comment. -/
theorem C5_inactive_legacy_sentinel (pid1 : Nat) (s : Stage) (h : s.inactive = true) :
    formattedStageRotation "ROT" pid1 s =
      "999 0.0 0.0 0.0 0.0 999 # " ++
        (formattedStageRotationData pid1 s ++ " " ++ format_grot_mprs_comment s.comment) ++
        "\n" := by
  simp [formattedStageRotation, h]

/-- Witness for C5: the sentinel line at a concrete inactive record. -/
theorem C5_inactive_legacy_sentinel_witness :
    formattedStageRotation "ROT" 201 inactiveStage =
      "999 0.0 0.0 0.0 0.0 999 # " ++
        (formattedStageRotationData 201 inactiveStage ++ " " ++
          format_grot_mprs_comment inactiveStage.comment) ++ "\n" :=
  C5_inactive_legacy_sentinel 201 inactiveStage rfl

/-- C6: the serialization matrix — an active record in extended (GROT)
format is the data fields and the formatted comment joined by a single
space; an active record in legacy (ROT) format joins them with a
space-bang-space separator; an inactive record in extended format is the
same active-format line prefixed with a hash. -/
theorem C6_serialization_matrix (pid1 : Nat) (s : Stage) :
    (s.inactive = false →
      formattedStageRotation "GROT" pid1 s =
        formattedStageRotationData pid1 s ++ " " ++ format_grot_mprs_comment s.comment ++
          "\n" ∧
      formattedStageRotation "ROT" pid1 s =
        formattedStageRotationData pid1 s ++ " ! " ++ format_grot_mprs_comment s.comment ++
          "\n") ∧
    (s.inactive = true →
      formattedStageRotation "GROT" pid1 s =
        "#" ++ formattedStageRotation "GROT" pid1 { s with inactive := false }) := by
  constructor
  · intro h
    constructor <;> simp [formattedStageRotation, h]
  · intro h
    simp [formattedStageRotation, formattedStageRotationData, h, String.append_assoc]

/-- Witness for C6: the three matrix entries at concrete active and
inactive records. -/
theorem C6_serialization_matrix_witness :
    (formattedStageRotation "GROT" 201 presentStage =
      formattedStageRotationData 201 presentStage ++ " " ++
        format_grot_mprs_comment presentStage.comment ++ "\n" ∧
     formattedStageRotation "ROT" 201 presentStage =
      formattedStageRotationData 201 presentStage ++ " ! " ++
        format_grot_mprs_comment presentStage.comment ++ "\n") ∧
    formattedStageRotation "GROT" 201 inactiveStage =
      "#" ++ formattedStageRotation "GROT" 201 { inactiveStage with inactive := false } :=
  ⟨(C6_serialization_matrix 201 presentStage).1 rfl,
   (C6_serialization_matrix 201 inactiveStage).2 rfl⟩

/-- C7: per-plate metadata resolution never lets an exception escape: with
the plate record list nonempty and the first record carrying its designated
comment slots (the shape the parser produces for every record), the
resolution returns a metadata value for every comment-token mapping,
whether or not the MPRS:code, MPRS:name and FPID:code keys are present. -/
theorem C7_metadata_resolution_total (mprs : List (String × String)) (stages : List Stage)
    (first : Stage) (h1 : stages.head? = some first)
    (h2 : 4 ≤ first.comment.slots.length) :
    ∃ m : PlateMeta, resolvePlateMeta mprs stages = Except.ok m := by
  obtain ⟨v2, hv2⟩ : ∃ v, first.comment.slots[2]? = some v :=
    ⟨_, List.getElem?_eq_getElem (by omega)⟩
  obtain ⟨v3, hv3⟩ : ∃ v, first.comment.slots[3]? = some v :=
    ⟨_, List.getElem?_eq_getElem (by omega)⟩
  cases hc : mprs.lookup "MPRS:code" with
  | none =>
      cases hf : mprs.lookup "FPID:code" with
      | none =>
          exact ⟨⟨v2, (mprs.lookup "MPRS:name").getD "FIXME", v3⟩,
            by simp [resolvePlateMeta, h1, hc, hf, hv2, hv3]⟩
      | some f =>
          exact ⟨⟨v2, (mprs.lookup "MPRS:name").getD "FIXME", f⟩,
            by simp [resolvePlateMeta, h1, hc, hf, hv2, hv3]⟩
  | some c =>
      cases hf : mprs.lookup "FPID:code" with
      | none =>
          exact ⟨⟨c, (mprs.lookup "MPRS:name").getD "FIXME", v3⟩,
            by simp [resolvePlateMeta, h1, hc, hf, hv2, hv3]⟩
      | some f =>
          exact ⟨⟨c, (mprs.lookup "MPRS:name").getD "FIXME", f⟩,
            by simp [resolvePlateMeta, h1, hc, hf, hv2, hv3]⟩

/-- Witness for C7: resolution at an empty token mapping falls back to the
comment slots of the first record and the literal placeholder name. -/
theorem C7_metadata_resolution_total_witness :
    ∃ m : PlateMeta, resolvePlateMeta [] [presentStage] = Except.ok m :=
  C7_metadata_resolution_total [] [presentStage] presentStage rfl (by decide)

/-- C8: within a plate the stage records are crossover-checked and emitted
in their original file order: the repaired list agrees with the original
pointwise on every field the repair does not substitute (so nothing is
reordered, inserted or deleted), and the lines appended to the main output
are exactly the repaired stages in list order, the future-age ones
excepted. -/
theorem C8_stage_order_preserved (l : List Stage) (fmt : String) (pid1 : Nat)
    (st : RunState) :
    (detect_xover l).map stageCore = l.map stageCore ∧
    (processPlateStages fmt pid1 st l).output =
      st.output ++
        ((detect_xover l).filter (fun s => decide (¬ s.age < 0))).map
          (formattedStageRotation fmt pid1) :=
  ⟨detect_xover_core l, foldl_processStage_output fmt pid1 (detect_xover l) st⟩

/-- C9: the diagnostics report is the header followed by the three
categories in the fixed order ReplacedRotation, ZeroRotation,
FutureRotation, banner-separated, each category concatenated in its
collection order. -/
theorem C9_report_structure (st : RunState) :
    errorReport st =
      errHeader ++ banner ++ String.join st.replacedRotations ++ banner ++
        String.join st.zeroRotations ++ banner ++ String.join st.futureRotations ++
        banner := by
  simp only [errorReport]
  rw [foldl_append_join, foldl_append_join, foldl_append_join]

/-- C10: an inactive record with negative age is not written to the main
output in either target format — the future-age exclusion takes precedence
over the inactive-record serialization rule — and the record is logged as a
FutureRotation diagnostic instead. -/
theorem C10_future_precedes_inactive (fmt : String) (pid1 : Nat) (st : RunState)
    (s : Stage) (h1 : s.inactive = true) (h2 : s.age < 0) :
    (processStage fmt pid1 st s).output = st.output ∧
    (processStage fmt pid1 st s).futureRotations =
      st.futureRotations ++ [futureMsg (formattedStageRotation fmt pid1 s)] := by
  constructor
  · rw [processStage_output, if_pos h2]
  · rw [processStage_futureRotations, if_pos h2]

/-- Witness for C10: a concrete inactive future-age record is excluded from
the output and logged, in the legacy format. -/
theorem C10_future_precedes_inactive_witness :
    (processStage "ROT" 201 initState inactiveFutureStage).output = initState.output ∧
    (processStage "ROT" 201 initState inactiveFutureStage).futureRotations =
      initState.futureRotations ++
        [futureMsg (formattedStageRotation "ROT" 201 inactiveFutureStage)] :=
  C10_future_precedes_inactive "ROT" 201 initState inactiveFutureStage rfl (by decide)

end Rotconv
